import Mathlib

/-!
Shallow embedding of `src/PayriffSDK.ts` from the payriff-sdk-js repository,
together with theorems checking the specification's claims about it.

Modelling conventions:
* TypeScript optional fields (`field?: T`) become `Option T`; `none` is an
  omitted/undefined field.
* JS string-typed `a || b` fallbacks are `strOr`: both `undefined` and the
  empty string are falsy.  Enum-typed fallbacks (`Language`, `Currency`)
  are `optOr`: every enum value is a non-empty string, so only
  `undefined` is falsy.
* A JS object body is a `Json` value; `JSON.stringify` key order follows
  object insertion order, which for the merged literals in the source is
  the defaults' keys followed by the request's remaining keys.
* `fetch` is an uninterpreted transport function `HttpRequest → HttpResponse`;
  `response.json()` is the response's `jsonResult` field (`Except.error`
  when the body is not valid JSON, in which case the promise rejects).
* Each SDK method performs exactly one `fetch`; its denotation is a `Call`
  carrying that single issued request and the returned promise's outcome.
-/

namespace Payriff

/-- The `Language` constant object of PayriffSDK.ts: codes AZ, EN, RU. -/
inductive Language where
  | AZ
  | EN
  | RU
deriving DecidableEq

/-- The `Currency` constant object of PayriffSDK.ts: codes AZN, USD, EUR. -/
inductive Currency where
  | AZN
  | USD
  | EUR
deriving DecidableEq

/-- The `Operation` constant object of PayriffSDK.ts. -/
inductive Operation where
  | PURCHASE
  | PRE_AUTH
deriving DecidableEq

/-- Wire string of a `Language` value. -/
def Language.code : Language → String
  | .AZ => "AZ"
  | .EN => "EN"
  | .RU => "RU"

/-- Wire string of a `Currency` value. -/
def Currency.code : Currency → String
  | .AZN => "AZN"
  | .USD => "USD"
  | .EUR => "EUR"

/-- Wire string of an `Operation` value. -/
def Operation.code : Operation → String
  | .PURCHASE => "PURCHASE"
  | .PRE_AUTH => "PRE_AUTH"

/-- A JSON value, as produced by serializing a request body.  Numbers are
modelled as rationals; the SDK does no arithmetic on them. -/
inductive Json where
  | str : String → Json
  | num : Rat → Json
  | boolean : Bool → Json
  | null : Json
  | obj : List (String × Json) → Json

/-- The keys of a JSON object (empty for non-objects). -/
def Json.keys : Json → List String
  | .obj fields => fields.map Prod.fst
  | _ => []

/-- The process environment read by the static initializers of
`PayriffSDK` (lines 233-238): `PAYRIFF_SECRET_KEY` and
`PAYRIFF_CALLBACK_URL`, each possibly unset. -/
structure Env where
  PAYRIFF_SECRET_KEY : Option String
  PAYRIFF_CALLBACK_URL : Option String

/-- JS `value || fallback` for a possibly-undefined string: `undefined`
and the empty string are falsy and select the fallback. -/
def strOr (value : Option String) (fallback : String) : String :=
  match value with
  | none => fallback
  | some s => if s = "" then fallback else s

/-- JS `value || fallback` for a possibly-undefined enum-typed value:
every enum value is a non-empty string, hence truthy, so only
`undefined` selects the fallback. -/
def optOr {α : Type} (value : Option α) (fallback : α) : α :=
  match value with
  | none => fallback
  | some v => v

/-- JS object spread for one optional key of the spread-in record:
if the record has the key, its value wins; otherwise the earlier
default value is kept. -/
def spreadKey {α : Type} (dflt : α) (req : Option α) : α :=
  match req with
  | none => dflt
  | some v => v

/-- The `PayriffConfig` interface (lines 10-16): all fields optional. -/
structure PayriffConfig where
  baseUrl : Option String := none
  secretKey : Option String := none
  defaultLanguage : Option Language := none
  defaultCurrency : Option Currency := none
  defaultCallbackUrl : Option String := none

/-- The fixed headers object built by the constructor (lines 253-256). -/
structure Headers where
  Authorization : String
  contentType : String
deriving DecidableEq

/-- HTTP method of a request: the SDK only uses GET and POST. -/
inductive Method where
  | GET
  | POST
deriving DecidableEq

/-- The argument of one `fetch` call (line 273-277): full URL, method,
headers, and the JSON body when one was attached (`...(body && ...)`
attaches a body exactly when one was passed; request bodies are objects,
which are always truthy in JS). -/
structure HttpRequest where
  url : String
  method : Method
  headers : Headers
  body : Option Json

/-- What the transport delivers for one request: the HTTP status code and
the outcome of `response.json()` — the parsed body, or an error when the
body is not valid JSON.  JSON parsing itself is the platform's, external
to the SDK. -/
structure HttpResponse where
  status : Nat
  jsonResult : Except String Json

/-- The state of a `PayriffSDK` instance after construction
(fields declared on lines 226-231). -/
structure PayriffSDK where
  baseUrl : String
  secretKey : String
  defaultLanguage : Language
  defaultCurrency : Currency
  defaultCallbackUrl : String
  headers : Headers

/-- `PayriffSDK.DEFAULT_BASE_URL` (line 232). -/
def DEFAULT_BASE_URL : String := "https://api.payriff.com/api/v3"

/-- `PayriffSDK.DEFAULT_SECRET_KEY = process.env.PAYRIFF_SECRET_KEY || ''`
(lines 233-234). -/
def DEFAULT_SECRET_KEY (env : Env) : String :=
  strOr env.PAYRIFF_SECRET_KEY ""

/-- `PayriffSDK.DEFAULT_LANGUAGE` (line 235). -/
def DEFAULT_LANGUAGE : Language := Language.AZ

/-- `PayriffSDK.DEFAULT_CURRENCY` (line 236). -/
def DEFAULT_CURRENCY : Currency := Currency.AZN

/-- `PayriffSDK.DEFAULT_CALLBACK_URL = process.env.PAYRIFF_CALLBACK_URL || ''`
(lines 237-238). -/
def DEFAULT_CALLBACK_URL (env : Env) : String :=
  strOr env.PAYRIFF_CALLBACK_URL ""

/-- The `PayriffSDK` constructor (lines 244-257): every field is resolved
by a JS `||` fallback, and the headers are fixed to the resolved secret
key (verbatim, unprefixed) plus `Content-Type: application/json`.  The
constructor is a total function: it never throws, whatever the config
and environment. -/
def PayriffSDK.construct (env : Env) (config : PayriffConfig) : PayriffSDK :=
  let secretKey := strOr config.secretKey (DEFAULT_SECRET_KEY env)
  { baseUrl := strOr config.baseUrl DEFAULT_BASE_URL
    secretKey := secretKey
    defaultLanguage := optOr config.defaultLanguage DEFAULT_LANGUAGE
    defaultCurrency := optOr config.defaultCurrency DEFAULT_CURRENCY
    defaultCallbackUrl := strOr config.defaultCallbackUrl (DEFAULT_CALLBACK_URL env)
    headers := { Authorization := secretKey, contentType := "application/json" } }

/-- The denotation of one SDK method call: the single HTTP request it
issues and the outcome of the returned promise. -/
structure Call where
  request : HttpRequest
  result : Except String Json

/-- `makeRequest` (lines 268-279): builds the URL by concatenating the
base URL with the endpoint, performs one `fetch` with the stored headers
and the optional JSON body, and returns `response.json()` — the parsed
body regardless of HTTP status, or a rejection when parsing fails. -/
def PayriffSDK.makeRequest (sdk : PayriffSDK)
    (transport : HttpRequest → HttpResponse)
    (endpoint : String) (method : Method) (body : Option Json) : Call :=
  let request : HttpRequest :=
    { url := sdk.baseUrl ++ endpoint
      method := method
      headers := sdk.headers
      body := body }
  let response := transport request
  { request := request, result := response.jsonResult }

/-- `CreateOrderRequest` (lines 24-46): required amount and description,
optional language, currency, cardSave, operation, callbackUrl. -/
structure CreateOrderRequest where
  amount : Rat
  description : String
  language : Option Language := none
  currency : Option Currency := none
  cardSave : Option Bool := none
  operation : Option Operation := none
  callbackUrl : Option String := none

/-- `RefundRequest` (lines 93-96). -/
structure RefundRequest where
  amount : Rat
  orderId : String

/-- `CompleteRequest` (lines 104-107). -/
structure CompleteRequest where
  amount : Rat
  orderId : String

/-- `AutoPayRequest` (lines 116-135): required cardUuid, amount,
description; optional currency, operation, callbackUrl.  It has no
language field. -/
structure AutoPayRequest where
  cardUuid : String
  amount : Rat
  description : String
  currency : Option Currency := none
  operation : Option Operation := none
  callbackUrl : Option String := none

/-- Serialization helper: `JSON.stringify` omits keys whose value is
`undefined`, so optional fields serialize only when present. -/
def jsonFields (fields : List (String × Option Json)) : List (String × Json) :=
  fields.filterMap (fun kv => kv.2.map (fun v => (kv.1, v)))

/-- `JSON.stringify` of a (possibly defaulted) `CreateOrderRequest`, with
keys in the insertion order of the merged object literal built by
`createOrder` (defaults first, then the request's remaining keys). -/
def CreateOrderRequest.toJson (r : CreateOrderRequest) : Json :=
  Json.obj (jsonFields
    [("language", r.language.map (fun l => Json.str l.code)),
     ("currency", r.currency.map (fun c => Json.str c.code)),
     ("callbackUrl", r.callbackUrl.map Json.str),
     ("cardSave", r.cardSave.map Json.boolean),
     ("operation", r.operation.map (fun o => Json.str o.code)),
     ("amount", some (Json.num r.amount)),
     ("description", some (Json.str r.description))])

/-- `JSON.stringify` of a `RefundRequest`, keys in interface order. -/
def RefundRequest.toJson (r : RefundRequest) : Json :=
  Json.obj [("amount", Json.num r.amount), ("orderId", Json.str r.orderId)]

/-- `JSON.stringify` of a `CompleteRequest`, keys in interface order. -/
def CompleteRequest.toJson (r : CompleteRequest) : Json :=
  Json.obj [("amount", Json.num r.amount), ("orderId", Json.str r.orderId)]

/-- `JSON.stringify` of a (possibly defaulted) `AutoPayRequest`, with keys
in the insertion order of the merged object literal built by `autoPay`. -/
def AutoPayRequest.toJson (r : AutoPayRequest) : Json :=
  Json.obj (jsonFields
    [("currency", r.currency.map (fun c => Json.str c.code)),
     ("callbackUrl", r.callbackUrl.map Json.str),
     ("operation", r.operation.map (fun o => Json.str o.code)),
     ("cardUuid", some (Json.str r.cardUuid)),
     ("amount", some (Json.num r.amount)),
     ("description", some (Json.str r.description))])

/-- The `defaultedRequest` object literal built inside `createOrder`
(lines 289-296): configured defaults for language, currency, callbackUrl,
plus `cardSave: false` and `operation: 'PURCHASE'`, spread-overridden by
the caller's request — a present key of `request` wins, an absent key
keeps the default.  The caller's record is not modified. -/
def PayriffSDK.defaultedCreateOrder (sdk : PayriffSDK)
    (request : CreateOrderRequest) : CreateOrderRequest :=
  { amount := request.amount
    description := request.description
    language := some (spreadKey sdk.defaultLanguage request.language)
    currency := some (spreadKey sdk.defaultCurrency request.currency)
    callbackUrl := some (spreadKey sdk.defaultCallbackUrl request.callbackUrl)
    cardSave := some (spreadKey false request.cardSave)
    operation := some (spreadKey Operation.PURCHASE request.operation) }

/-- `createOrder` (lines 286-303): POST the defaulted request to `/orders`. -/
def PayriffSDK.createOrder (sdk : PayriffSDK)
    (transport : HttpRequest → HttpResponse)
    (request : CreateOrderRequest) : Call :=
  sdk.makeRequest transport "/orders" Method.POST
    (some (sdk.defaultedCreateOrder request).toJson)

/-- `getOrderInfo` (lines 310-312): GET `/orders/${orderId}` with no body. -/
def PayriffSDK.getOrderInfo (sdk : PayriffSDK)
    (transport : HttpRequest → HttpResponse)
    (orderId : String) : Call :=
  sdk.makeRequest transport ("/orders/" ++ orderId) Method.GET none

/-- `refund` (lines 319-321): POST the caller's request, unchanged, to
`/refund`. -/
def PayriffSDK.refund (sdk : PayriffSDK)
    (transport : HttpRequest → HttpResponse)
    (request : RefundRequest) : Call :=
  sdk.makeRequest transport "/refund" Method.POST (some request.toJson)

/-- `complete` (lines 328-330): POST the caller's request, unchanged, to
`/complete`. -/
def PayriffSDK.complete (sdk : PayriffSDK)
    (transport : HttpRequest → HttpResponse)
    (request : CompleteRequest) : Call :=
  sdk.makeRequest transport "/complete" Method.POST (some request.toJson)

/-- The `defaultedRequest` object literal built inside `autoPay`
(lines 340-345): configured defaults for currency and callbackUrl plus
`operation: 'PURCHASE'`, spread-overridden by the caller's request.
No language default is injected. -/
def PayriffSDK.defaultedAutoPay (sdk : PayriffSDK)
    (request : AutoPayRequest) : AutoPayRequest :=
  { cardUuid := request.cardUuid
    amount := request.amount
    description := request.description
    currency := some (spreadKey sdk.defaultCurrency request.currency)
    callbackUrl := some (spreadKey sdk.defaultCallbackUrl request.callbackUrl)
    operation := some (spreadKey Operation.PURCHASE request.operation) }

/-- `autoPay` (lines 337-348): POST the defaulted request to `/autoPay`. -/
def PayriffSDK.autoPay (sdk : PayriffSDK)
    (transport : HttpRequest → HttpResponse)
    (request : AutoPayRequest) : Call :=
  sdk.makeRequest transport "/autoPay" Method.POST
    (some (sdk.defaultedAutoPay request).toJson)

/-- `isSuccessful` (lines 355-357): a pure method reading no instance
state. -/
def PayriffSDK.isSuccessful (_self : PayriffSDK) (code : String) : Bool :=
  code == "00000" || code == "00"

/-- State-transformer embedding of the `createOrder` method: the method
body contains no assignment to any `this` field nor to any property of
its `request` argument, so its transformer returns the instance state
and the argument record unchanged alongside the call's denotation. -/
def PayriffSDK.createOrderStep (sdk : PayriffSDK)
    (transport : HttpRequest → HttpResponse)
    (request : CreateOrderRequest) : PayriffSDK × CreateOrderRequest × Call :=
  (sdk, request, sdk.createOrder transport request)

/-- State-transformer embedding of `getOrderInfo`; its body only reads. -/
def PayriffSDK.getOrderInfoStep (sdk : PayriffSDK)
    (transport : HttpRequest → HttpResponse)
    (orderId : String) : PayriffSDK × String × Call :=
  (sdk, orderId, sdk.getOrderInfo transport orderId)

/-- State-transformer embedding of `refund`; its body only reads. -/
def PayriffSDK.refundStep (sdk : PayriffSDK)
    (transport : HttpRequest → HttpResponse)
    (request : RefundRequest) : PayriffSDK × RefundRequest × Call :=
  (sdk, request, sdk.refund transport request)

/-- State-transformer embedding of `complete`; its body only reads. -/
def PayriffSDK.completeStep (sdk : PayriffSDK)
    (transport : HttpRequest → HttpResponse)
    (request : CompleteRequest) : PayriffSDK × CompleteRequest × Call :=
  (sdk, request, sdk.complete transport request)

/-- State-transformer embedding of `autoPay`: no assignment to `this`
fields nor to the argument record occurs in its body. -/
def PayriffSDK.autoPayStep (sdk : PayriffSDK)
    (transport : HttpRequest → HttpResponse)
    (request : AutoPayRequest) : PayriffSDK × AutoPayRequest × Call :=
  (sdk, request, sdk.autoPay transport request)

/-- State-transformer embedding of `isSuccessful`; pure, reads nothing. -/
def PayriffSDK.isSuccessfulStep (sdk : PayriffSDK)
    (code : String) : PayriffSDK × Bool :=
  (sdk, sdk.isSuccessful code)

/-- JS object spread of a possibly-absent key over a default is exactly
`Option.getD`: a present key wins, an absent key keeps the default. -/
theorem spreadKey_eq_getD {α : Type} (dflt : α) (req : Option α) :
    spreadKey dflt req = req.getD dflt := by
  cases req <;> rfl

/-- C1: `createOrder` builds its body by merging the caller's record over
the configured defaults: each optional field omitted by the caller is set
to the configured default (`cardSave` to `false`, `operation` to
`PURCHASE`), every caller-supplied field keeps exactly the caller's value
(including falsy values such as amount `0` or `cardSave := some false`,
since the merge tests key presence, not truthiness), and the serialized
body is exactly the merged record. -/
theorem createOrder_merges_defaults :
    ∀ (sdk : PayriffSDK) (transport : HttpRequest → HttpResponse)
      (request : CreateOrderRequest),
      (sdk.defaultedCreateOrder request).amount = request.amount
      ∧ (sdk.defaultedCreateOrder request).description = request.description
      ∧ (sdk.defaultedCreateOrder request).language
          = some (request.language.getD sdk.defaultLanguage)
      ∧ (sdk.defaultedCreateOrder request).currency
          = some (request.currency.getD sdk.defaultCurrency)
      ∧ (sdk.defaultedCreateOrder request).callbackUrl
          = some (request.callbackUrl.getD sdk.defaultCallbackUrl)
      ∧ (sdk.defaultedCreateOrder request).cardSave
          = some (request.cardSave.getD false)
      ∧ (sdk.defaultedCreateOrder request).operation
          = some (request.operation.getD Operation.PURCHASE)
      ∧ (sdk.createOrder transport request).request.body
          = some (sdk.defaultedCreateOrder request).toJson := by
  intro sdk transport request
  refine ⟨rfl, rfl, ?_, ?_, ?_, ?_, ?_, rfl⟩ <;>
    simp [PayriffSDK.defaultedCreateOrder, spreadKey_eq_getD]

/-- C2: `isSuccessful` returns true exactly on the two success codes
`00000` and `00`, and false on every other string. -/
theorem isSuccessful_iff_success_code :
    ∀ (sdk : PayriffSDK) (code : String),
      sdk.isSuccessful code = true ↔ (code = "00000" ∨ code = "00") := by
  intro sdk code
  simp [PayriffSDK.isSuccessful]

/-- C3: `autoPay` issues a POST to `/autoPay`; omitted currency,
callbackUrl and operation are defaulted (operation to `PURCHASE`),
caller-supplied values are kept, required fields pass through unchanged,
and no `language` key is injected into the body. -/
theorem autoPay_merges_defaults :
    ∀ (sdk : PayriffSDK) (transport : HttpRequest → HttpResponse)
      (request : AutoPayRequest),
      (sdk.autoPay transport request).request.method = Method.POST
      ∧ (sdk.autoPay transport request).request.url = sdk.baseUrl ++ "/autoPay"
      ∧ (sdk.autoPay transport request).request.body
          = some (sdk.defaultedAutoPay request).toJson
      ∧ (sdk.defaultedAutoPay request).cardUuid = request.cardUuid
      ∧ (sdk.defaultedAutoPay request).amount = request.amount
      ∧ (sdk.defaultedAutoPay request).description = request.description
      ∧ (sdk.defaultedAutoPay request).currency
          = some (request.currency.getD sdk.defaultCurrency)
      ∧ (sdk.defaultedAutoPay request).callbackUrl
          = some (request.callbackUrl.getD sdk.defaultCallbackUrl)
      ∧ (sdk.defaultedAutoPay request).operation
          = some (request.operation.getD Operation.PURCHASE)
      ∧ "language" ∉ ((sdk.defaultedAutoPay request).toJson).keys := by
  intro sdk transport request
  refine ⟨rfl, rfl, rfl, rfl, rfl, rfl, ?_, ?_, ?_, ?_⟩ <;>
    simp [PayriffSDK.defaultedAutoPay, spreadKey_eq_getD,
      AutoPayRequest.toJson, jsonFields, Json.keys]

/-- C5: `getOrderInfo` issues its single request as a GET to the base URL
concatenated with `/orders/` and the order id, with no body attached. -/
theorem getOrderInfo_request_shape :
    ∀ (sdk : PayriffSDK) (transport : HttpRequest → HttpResponse)
      (orderId : String),
      (sdk.getOrderInfo transport orderId).request.url
        = sdk.baseUrl ++ ("/orders/" ++ orderId)
      ∧ (sdk.getOrderInfo transport orderId).request.method = Method.GET
      ∧ (sdk.getOrderInfo transport orderId).request.body = none :=
  fun _ _ _ => ⟨rfl, rfl, rfl⟩

/-- C6: `refund` POSTs to `/refund` a body that is exactly the caller's
two-field record (amount, orderId) with nothing injected, and `complete`
behaves identically against `/complete`. -/
theorem refund_complete_request_shape :
    ∀ (sdk : PayriffSDK) (transport : HttpRequest → HttpResponse)
      (r : RefundRequest) (c : CompleteRequest),
      (sdk.refund transport r).request.method = Method.POST
      ∧ (sdk.refund transport r).request.url = sdk.baseUrl ++ "/refund"
      ∧ (sdk.refund transport r).request.body
          = some (Json.obj
              [("amount", Json.num r.amount), ("orderId", Json.str r.orderId)])
      ∧ (sdk.complete transport c).request.method = Method.POST
      ∧ (sdk.complete transport c).request.url = sdk.baseUrl ++ "/complete"
      ∧ (sdk.complete transport c).request.body
          = some (Json.obj
              [("amount", Json.num c.amount), ("orderId", Json.str c.orderId)]) :=
  fun _ _ _ _ => ⟨rfl, rfl, rfl, rfl, rfl, rfl⟩

/-- C7: the outcome of a call is exactly the transport's JSON parse
result for the issued request — returned as the envelope with no status
inspection, no throwing, and no reading of the `code` field — and two
responses differing only in HTTP status yield identical outcomes. -/
theorem response_envelope_passthrough :
    ∀ (sdk : PayriffSDK) (transport : HttpRequest → HttpResponse)
      (endpoint : String) (method : Method) (body : Option Json),
      (sdk.makeRequest transport endpoint method body).result
        = (transport (sdk.makeRequest transport endpoint method body).request).jsonResult
      ∧ ∀ (s s' : Nat) (jr : Except String Json),
          (sdk.makeRequest (fun _ => ⟨s, jr⟩) endpoint method body).result
            = (sdk.makeRequest (fun _ => ⟨s', jr⟩) endpoint method body).result :=
  fun _ _ _ _ _ => ⟨rfl, fun _ _ _ => rfl⟩

/-- C8: when the transport's body fails JSON parsing, the call's outcome
is that error — the promise rejects — and is never a returned envelope. -/
theorem invalid_json_rejects :
    ∀ (sdk : PayriffSDK) (transport : HttpRequest → HttpResponse)
      (endpoint : String) (method : Method) (body : Option Json) (e : String),
      (transport (sdk.makeRequest transport endpoint method body).request).jsonResult
          = Except.error e →
      (sdk.makeRequest transport endpoint method body).result = Except.error e
      ∧ ∀ j : Json,
          (sdk.makeRequest transport endpoint method body).result ≠ Except.ok j := by
  intro sdk transport endpoint method body e h
  refine ⟨h, ?_⟩
  intro j hj
  exact Except.noConfusion (h.symm.trans hj)

/-- C8 witness: a concrete parse failure rejects with that error. -/
theorem invalid_json_rejects_witness :
    ((PayriffSDK.construct ⟨none, none⟩ {}).makeRequest
        (fun _ => ⟨500, Except.error "unexpected token"⟩)
        "/orders" Method.POST none).result = Except.error "unexpected token" :=
  (invalid_json_rejects (PayriffSDK.construct ⟨none, none⟩ {})
    (fun _ => ⟨500, Except.error "unexpected token"⟩)
    "/orders" Method.POST none "unexpected token" rfl).1

/-- C4: with an explicit non-empty secret key S, the instance and every
request issued by the request-sending operations carry an Authorization
header equal to S verbatim; and when the secret key is absent from both
the explicit config and the environment, construction still succeeds
(`PayriffSDK.construct` is total) and the Authorization header is the
empty string. -/
theorem authorization_header_verbatim :
    (∀ (env : Env) (cfg : PayriffConfig) (S : String),
      cfg.secretKey = some S → S ≠ "" →
      (PayriffSDK.construct env cfg).headers.Authorization = S
      ∧ ∀ (transport : HttpRequest → HttpResponse),
          (∀ r : CreateOrderRequest,
            ((PayriffSDK.construct env cfg).createOrder transport r).request.headers.Authorization = S)
          ∧ (∀ oid : String,
            ((PayriffSDK.construct env cfg).getOrderInfo transport oid).request.headers.Authorization = S)
          ∧ (∀ r : RefundRequest,
            ((PayriffSDK.construct env cfg).refund transport r).request.headers.Authorization = S)
          ∧ (∀ r : CompleteRequest,
            ((PayriffSDK.construct env cfg).complete transport r).request.headers.Authorization = S)
          ∧ (∀ r : AutoPayRequest,
            ((PayriffSDK.construct env cfg).autoPay transport r).request.headers.Authorization = S))
    ∧ (∀ (env : Env) (cfg : PayriffConfig),
        cfg.secretKey = none → env.PAYRIFF_SECRET_KEY = none →
        (PayriffSDK.construct env cfg).headers.Authorization = "") := by
  constructor
  · intro env cfg S h1 h2
    have hAuth : (PayriffSDK.construct env cfg).headers.Authorization = S := by
      simp [PayriffSDK.construct, strOr, h1, h2]
    exact ⟨hAuth, fun transport =>
      ⟨fun _ => hAuth, fun _ => hAuth, fun _ => hAuth, fun _ => hAuth,
       fun _ => hAuth⟩⟩
  · intro env cfg h1 h2
    simp [PayriffSDK.construct, strOr, DEFAULT_SECRET_KEY, h1, h2]

/-- C4 witness: a concrete explicit key reaches a request's header
verbatim, and a concrete fully-absent key yields an empty header. -/
theorem authorization_header_verbatim_witness :
    ((PayriffSDK.construct ⟨none, none⟩ { secretKey := some "S" }).createOrder
        (fun _ => ⟨200, Except.error ""⟩)
        { amount := 0, description := "d" }).request.headers.Authorization = "S"
    ∧ (PayriffSDK.construct ⟨none, none⟩ {}).headers.Authorization = "" :=
  ⟨((authorization_header_verbatim.1 ⟨none, none⟩ { secretKey := some "S" } "S"
      rfl (by decide)).2 (fun _ => ⟨200, Except.error ""⟩)).1
      { amount := 0, description := "d" },
   authorization_header_verbatim.2 ⟨none, none⟩ {} rfl rfl⟩

/-- C9: under the state-transformer embedding of the SDK methods, no
operation modifies the instance configuration and no operation mutates
its argument record: every post-state equals the pre-state. -/
theorem operations_preserve_state :
    ∀ (sdk : PayriffSDK) (transport : HttpRequest → HttpResponse),
      (∀ r : CreateOrderRequest,
        (sdk.createOrderStep transport r).1 = sdk
        ∧ (sdk.createOrderStep transport r).2.1 = r)
      ∧ (∀ oid : String,
        (sdk.getOrderInfoStep transport oid).1 = sdk
        ∧ (sdk.getOrderInfoStep transport oid).2.1 = oid)
      ∧ (∀ r : RefundRequest,
        (sdk.refundStep transport r).1 = sdk
        ∧ (sdk.refundStep transport r).2.1 = r)
      ∧ (∀ r : CompleteRequest,
        (sdk.completeStep transport r).1 = sdk
        ∧ (sdk.completeStep transport r).2.1 = r)
      ∧ (∀ r : AutoPayRequest,
        (sdk.autoPayStep transport r).1 = sdk
        ∧ (sdk.autoPayStep transport r).2.1 = r)
      ∧ (∀ code : String, (sdk.isSuccessfulStep code).1 = sdk) :=
  fun _ _ =>
    ⟨fun _ => ⟨rfl, rfl⟩, fun _ => ⟨rfl, rfl⟩, fun _ => ⟨rfl, rfl⟩,
     fun _ => ⟨rfl, rfl⟩, fun _ => ⟨rfl, rfl⟩, fun _ => rfl⟩

/-- C10: constructing with an explicit empty-string secretKey or baseUrl
behaves exactly as if those fields were absent — the empty baseUrl falls
back to the fixed vendor endpoint and the empty secretKey to the
environment fallback — because each config field is resolved with a
falsy-or fallback, not a key-presence check. -/
theorem construct_empty_string_config :
    ∀ (env : Env) (dl : Option Language) (dc : Option Currency)
      (du : Option String),
      PayriffSDK.construct env ⟨some "", some "", dl, dc, du⟩
        = PayriffSDK.construct env ⟨none, none, dl, dc, du⟩
      ∧ (PayriffSDK.construct env ⟨some "", some "", dl, dc, du⟩).baseUrl
          = DEFAULT_BASE_URL
      ∧ (PayriffSDK.construct env ⟨some "", some "", dl, dc, du⟩).secretKey
          = DEFAULT_SECRET_KEY env := by
  intro env dl dc du
  refine ⟨?_, ?_, ?_⟩ <;> simp [PayriffSDK.construct, strOr]

end Payriff
